import Mathlib

/-!
Verification of the request-routing / message-correlation subsystem of the
wordpress-playground repository: the `postMessage` correlation module
(`postMessageExpectReply`, `awaitReply`, `responseTo`), the scope codec, and
the service-worker interception gateway (`initializeServiceWorker`,
`seemsLikeAPHPServerPath`, `parsePost`, `cloneRequest`).

Modelling conventions: JavaScript numbers used as correlation ids are
modelled as `Nat` (they are produced by incrementing a counter that starts
at 0); a URL is modelled by its path-query-fragment string; `postMessage`
event delivery is modelled as a list of events folded over a waiter state;
exceptions and promise rejections are modelled with `Except`.
-/

namespace Playground

/-- The data carried by one inbound `message` event: the fields that
`awaitReply` inspects (`event.data.type`, `event.data.requestId`) and the
field it resolves with (`event.data.response`). The payload type is a
parameter. -/
structure MessageData (α : Type) where
  type : String
  requestId : Nat
  response : α
deriving DecidableEq

/-- `DEFAULT_RESPONSE_TIMEOUT` from the messaging module. -/
def DEFAULT_RESPONSE_TIMEOUT : Nat := 25000

/-- The condition tested by `awaitReply`'s `responseHandler`:
`event.data.type === 'response' && event.data.requestId === requestId`. -/
def matchesReply (requestId : Nat) (m : MessageData α) : Bool :=
  m.type == "response" && m.requestId == requestId

/-- The outcome of the promise returned by `awaitReply`. -/
inductive ReplyOutcome (α : Type) where
  | pending
  | resolved (response : α)
  | rejected (message : String)
deriving DecidableEq

/-- A JavaScript promise settles at most once: `resolve`/`reject` after the
first settlement are no-ops. -/
def ReplyOutcome.settle : ReplyOutcome α → ReplyOutcome α → ReplyOutcome α
  | .pending, o => o
  | s, _ => s

/-- The state of one `awaitReply` call: the promise outcome, whether
`responseHandler` is still registered via `addEventListener`, and whether
the `failOntimeout` timer is still scheduled (not yet cleared or fired). -/
structure Waiter (α : Type) where
  outcome : ReplyOutcome α
  listenerOn : Bool
  timerOn : Bool
deriving DecidableEq

/-- The state right after `awaitReply` runs its executor: promise pending,
`responseHandler` registered, `failOntimeout` scheduled. -/
def awaitReplyStart : Waiter α :=
  { outcome := .pending, listenerOn := true, timerOn := true }

/-- An event observed by one `awaitReply` call: either an inbound `message`
event on the channel, or the expiry of its own timeout timer. -/
inductive ChannelEvent (α : Type) where
  | message (data : MessageData α)
  | timerFires
deriving DecidableEq

/-- One step of `awaitReply`'s handlers. On a `message` event,
`responseHandler` (if still registered) tests the match condition and, on a
match, removes itself, clears the timer and resolves with
`event.data.response`; otherwise it does nothing. On timer expiry (if the
timer was not cleared), the timeout callback rejects with the timeout error
and removes the listener. -/
def awaitReplyStep (requestId : Nat) (w : Waiter α) : ChannelEvent α → Waiter α
  | .message data =>
    if w.listenerOn && matchesReply requestId data then
      { outcome := w.outcome.settle (.resolved data.response),
        listenerOn := false, timerOn := false }
    else w
  | .timerFires =>
    if w.timerOn then
      { outcome := w.outcome.settle (.rejected "Request timed out"),
        listenerOn := false, timerOn := false }
    else w

/-- Folding a sequence of events over one `awaitReply` call's state. -/
def awaitReplyRun (requestId : Nat) (w : Waiter α) (events : List (ChannelEvent α)) : Waiter α :=
  events.foldl (awaitReplyStep requestId) w

/-- `responseTo` from the messaging module: builds the reply message
`type = response, requestId, response`. -/
def responseTo (requestId : Nat) (response : α) : MessageData α :=
  { type := "response", requestId := requestId, response := response }

/-- `postMessageExpectReply` increments the module-level `lastRequestId`
counter and uses the new value; the counter starts at 0. -/
def lastRequestIdStart : Nat := 0

/-- A message as posted by `postMessageExpectReply`: the caller's payload
together with the fresh `requestId` spread into it. -/
structure SentMessage (α : Type) where
  payload : α
  requestId : Nat
deriving DecidableEq

/-- `postMessageExpectReply`: computes `requestId = ++lastRequestId`, posts
the payload branded with that `requestId`, and returns the `requestId`.
Takes and returns the counter state explicitly. -/
def postMessageExpectReply (lastRequestId : Nat) (message : α) :
    SentMessage α × Nat × Nat :=
  let requestId := lastRequestId + 1
  ({ payload := message, requestId := requestId }, requestId, requestId)

/-- The ids returned by `n` successive `postMessageExpectReply` calls
starting from counter state `s`. -/
def requestIdSeq (s : Nat) : Nat → List Nat
  | 0 => []
  | n + 1 =>
    let r := postMessageExpectReply s ()
    r.2.1 :: requestIdSeq r.2.2 n

/-- Invariant of a waiter: if the promise has settled, the listener has been
removed and the timer cleared. -/
def WaiterClean (w : Waiter α) : Prop :=
  w.outcome ≠ .pending → w.listenerOn = false ∧ w.timerOn = false

-- Scope codec ---------------------------------------------------------------

/-- The scope segment marker: the characters of the string `/scope:`. -/
def scopeMarker : List Char := "/scope:".toList

/-- Modelled from the spec: the scope codec module (imported by the service
worker as `../scope`) is not among the provided source files. The spec fixes
the embedding convention as a distinguished leading path segment of the form
`/scope:` followed by the token and then the original path, and a URL is
modelled here by its path string. `setURLScope` embeds the token as that
leading segment. -/
def setURLScope (url : String) (token : String) : String :=
  String.mk (scopeMarker ++ token.toList ++ url.toList)

/-- Modelled from the spec: true when the path starts with the `/scope:`
segment marker. -/
def isURLScoped (url : String) : Bool :=
  url.toList.take 7 == scopeMarker

/-- Modelled from the spec: the token is the part of the first path segment
after `/scope:`, up to the next path separator; absent when unscoped. -/
def getURLScope (url : String) : Option String :=
  if isURLScoped url then
    some (String.mk ((url.toList.drop 7).takeWhile (fun c => c ≠ '/')))
  else none

/-- Modelled from the spec: strips the `/scope:` token segment, leaving the
original path; identity on unscoped URLs. -/
def removeURLScope (url : String) : String :=
  if isURLScoped url then
    String.mk ((url.toList.drop 7).dropWhile (fun c => c ≠ '/'))
  else url

-- Forward heuristic ---------------------------------------------------------

/-- JavaScript `s.includes(pat)`: the pattern occurs as a contiguous run of
characters. -/
def includesSeq (pat : List Char) : List Char → Bool
  | [] => pat.isEmpty
  | c :: cs => pat.isPrefixOf (c :: cs) || includesSeq pat cs

/-- `seemsLikeAPHPFile`: `path.endsWith('.php') || path.includes('.php/')`. -/
def seemsLikeAPHPFile (path : String) : Bool :=
  ".php".toList.isSuffixOf path.toList || includesSeq ".php/".toList path.toList

/-- JavaScript `path.split('/')`: splits on every `/`, keeping empty
segments; the result is never empty. -/
def splitOnSlash : List Char → List (List Char)
  | [] => [[]]
  | c :: cs =>
    let rest := splitOnSlash cs
    if c = '/' then [] :: rest
    else
      match rest with
      | [] => [[c]]
      | r :: rs => (c :: r) :: rs

/-- `seemsLikeADirectoryRoot`: the last segment of `path.split('/')` does
not contain a dot. -/
def seemsLikeADirectoryRoot (path : String) : Bool :=
  !((splitOnSlash path.toList).getLastD []).contains '.'

/-- `seemsLikeAPHPServerPath`, the default forward predicate. -/
def seemsLikeAPHPServerPath (path : String) : Bool :=
  seemsLikeAPHPFile path || seemsLikeADirectoryRoot path

-- Interception gateway ------------------------------------------------------

/-- The attributes of a fetch-event `Request` that the service worker reads
or copies. The URL is modelled by its path-query-fragment string; the body
by an optional byte list (as produced by `request.blob()`). -/
structure RequestModel where
  url : String
  method : String
  headers : List (String × String)
  body : Option (List Nat)
  referrer : String
  referrerPolicy : String
  mode : String
  credentials : String
  cache : String
  redirect : String
  integrity : String
deriving DecidableEq

/-- `request.headers.get(name)`: the value of the first header with the
given name, or absent. -/
def headerGet (headers : List (String × String)) (name : String) : Option String :=
  (headers.find? (fun p => p.1 == name)).map (fun p => p.2)

/-- Modelled from the spec boundary: the constructor `new URL(s)` throws on
an empty (or unparsable) string, which the service worker catches, leaving
the referer unset. A nonempty referer header is modelled as parsing to its
path string. -/
def parseRefererURL : Option String → Option String
  | none => none
  | some s => if s = "" then none else some s

/-- Scope resolution of the fetch listener: if the request URL is not
scoped, try to read the referer header, and if the referer parses and is
itself scoped, embed the referer's scope into the request URL. -/
def resolveScopedUrl (request : RequestModel) : String :=
  if isURLScoped request.url then request.url
  else
    match parseRefererURL (headerGet request.headers "referer") with
    | some referer =>
      if isURLScoped referer then
        setURLScope request.url ((getURLScope referer).getD "")
      else request.url
    | none => request.url

/-- `cloneRequest(request, overrides)` at the call site used by the service
worker: only a `url` override is passed, so the body is dropped for GET and
HEAD and kept (via `request.blob()`) otherwise, the `navigate` mode is
rewritten to `same-origin`, and every other attribute is copied. -/
def cloneRequest (request : RequestModel) (urlOverride : Option String) : RequestModel :=
  { request with
    url := urlOverride.getD request.url,
    body := if request.method = "GET" ∨ request.method = "HEAD" then none else request.body,
    mode := if request.mode = "navigate" then "same-origin" else request.mode }

/-- The decision the fetch listener takes for one event: leave the event to
the browser, suppress it and answer with a reissued fetch of the given
request, or suppress it and forward to the PHP worker using the given
(scoped) URL. -/
inductive FetchDecision where
  | browserDefault
  | reissue (request : RequestModel)
  | forward (url : String)
deriving DecidableEq

/-- The branch structure of the fetch listener: resolve the scope, test the
forward predicate against the unscoped URL; a scoped request that is not
forwarded is reissued with the scope stripped; an unscoped one is left to
the browser; otherwise the request is forwarded. -/
def handleFetch (shouldForward : RequestModel → String → Bool)
    (request : RequestModel) : FetchDecision :=
  let url := resolveScopedUrl request
  let unscopedUrl := removeURLScope url
  if !isURLScoped url || !shouldForward request unscopedUrl then
    if isURLScoped url then
      FetchDecision.reissue (cloneRequest request (some unscopedUrl))
    else FetchDecision.browserDefault
  else FetchDecision.forward url

-- Body parsing --------------------------------------------------------------

/-- One entry of the parsed form data: either a `File` value or an ordinary
field value. Files are abstracted as opaque strings. -/
inductive FormEntry where
  | fileEntry (file : String)
  | fieldEntry (value : String)
deriving DecidableEq

/-- The `post` value produced by `parsePost`: either the non-file form
fields, or the JSON document the body parsed to (abstracted as a string). -/
inductive PostBody where
  | formFields (fields : List (String × String))
  | jsonBody (json : String)
deriving DecidableEq

/-- The result of `parsePost`: `post` and `files` are both absent for
non-POST requests. -/
structure ParsedPost where
  post : Option PostBody
  files : Option (List (String × String))
deriving DecidableEq

/-- `parsePost`. Its two host parsers are modelled by their outcomes:
`formDataResult` is the outcome of `request.clone().formData()` (absent
when it threw) and `jsonResult` the outcome of `request.clone().json()`
(absent when it threw). Non-POST requests yield both fields undefined; a
successful form parse is split into files and non-file fields; on a form
parse failure the JSON parse is tried with an empty files map; the JSON
call is not guarded, so when it also fails the exception escapes
`parsePost`. -/
def parsePost (method : String)
    (formDataResult : Option (List (String × FormEntry)))
    (jsonResult : Option String) : Except Unit ParsedPost :=
  if method ≠ "POST" then Except.ok { post := none, files := none }
  else
    match formDataResult with
    | some entries =>
      Except.ok
        { post := some (PostBody.formFields (entries.filterMap (fun p =>
            match p.2 with
            | FormEntry.fieldEntry v => some (p.1, v)
            | FormEntry.fileEntry _ => none))),
          files := some (entries.filterMap (fun p =>
            match p.2 with
            | FormEntry.fileEntry f => some (p.1, f)
            | FormEntry.fieldEntry _ => none)) }
    | none =>
      match jsonResult with
      | some j => Except.ok { post := some (PostBody.jsonBody j), files := some [] }
      | none => Except.error ()

-- Forward branch ------------------------------------------------------------

/-- Modelled from the spec: `getPathQueryFragment` (imported as `../utils`)
is not among the provided source files; it extracts the path, query and
fragment of a URL, and a URL is modelled here by exactly that string, so it
is the identity. -/
def getPathQueryFragment (url : String) : String := url

/-- The `request` part of the `HTTPRequest` message built by the forward
branch. -/
structure WorkerRequest where
  path : String
  method : String
  headers : List (String × String)
  post : Option PostBody
  files : Option (List (String × String))
deriving DecidableEq

/-- The `HTTPRequest` message broadcast to every client (before the
correlation id is spread into it by the broadcast step). -/
structure WorkerMessage where
  type : String
  scope : Option String
  request : WorkerRequest
deriving DecidableEq

/-- The `response` field of a well-formed worker reply. -/
structure PHPResponse where
  statusCode : Nat
  headers : List (String × String)
  body : String
deriving DecidableEq

/-- The HTTP response synthesized by the forward branch:
`new Response(phpResponse.body, status phpResponse.statusCode and headers
phpResponse.headers)`. -/
structure SyntheticResponse where
  status : Nat
  headers : List (String × String)
  body : String
deriving DecidableEq

/-- The message the forward branch builds from the event's request, the
scoped URL and the parsed body. -/
def buildWorkerMessage (request : RequestModel) (url : String)
    (parsed : ParsedPost) : WorkerMessage :=
  { type := "HTTPRequest",
    scope := getURLScope url,
    request :=
      { path := getPathQueryFragment url,
        method := request.method,
        headers := request.headers,
        post := parsed.post,
        files := parsed.files } }

/-- The fate of the promise the forward branch hands to
`event.respondWith`. Its executor is an `async` function that receives only
`accept` and no reject capability, so the promise settles exactly when
`accept` is called with a synthesized response; when the executor throws
instead (a parse failure, or the rethrown `awaitReply` timeout or dispatch
exception), the throw rejects only the async function's own unobserved
promise, the `respondWith` promise never settles, and the fetch event hangs
without a browser-visible error. -/
inductive EventOutcome where
  | answered (response : SyntheticResponse)
  | hangs
deriving DecidableEq

/-- The forward branch of the fetch listener, as a function of the parse
outcome and of the awaited-reply outcome for the broadcast message. It
returns the list of broadcast messages together with the fate of the
`respondWith` promise: a parse failure throws before any broadcast and the
event hangs; otherwise the message is broadcast once, and a reply failure
(timeout or exception) is rethrown inside the `accept`-only async executor
so the event hangs, while a reply reaches `accept` with the HTTP response
synthesized from its statusCode, headers and body. No failure is
retried. -/
def forwardBranch (request : RequestModel) (url : String)
    (parseResult : Except Unit ParsedPost)
    (replyOutcome : WorkerMessage → Except Unit PHPResponse) :
    List WorkerMessage × EventOutcome :=
  match parseResult with
  | Except.error _ => ([], EventOutcome.hangs)
  | Except.ok parsed =>
    let message := buildWorkerMessage request url parsed
    match replyOutcome message with
    | Except.error _ => ([message], EventOutcome.hangs)
    | Except.ok php =>
      ([message],
        EventOutcome.answered { status := php.statusCode, headers := php.headers, body := php.body })

/-- A concrete fetch-event request for the passthrough scenario: a scoped
request for a static asset. -/
def exampleLogoRequest : RequestModel :=
  { url := "/scope:abc/logo.png", method := "GET", headers := [], body := none,
    referrer := "", referrerPolicy := "", mode := "no-cors",
    credentials := "same-origin", cache := "default", redirect := "follow",
    integrity := "" }

-- Helper lemmas -------------------------------------------------------------

/-- Once the listener is removed and the timer cleared, no event changes the
waiter. -/
theorem awaitReplyStep_off (requestId : Nat) (w : Waiter α) (e : ChannelEvent α)
    (hl : w.listenerOn = false) (ht : w.timerOn = false) :
    awaitReplyStep requestId w e = w := by
  cases e <;> simp [awaitReplyStep, hl, ht]

/-- Once the listener is removed and the timer cleared, no event sequence
changes the waiter. -/
theorem awaitReplyRun_off (requestId : Nat) (w : Waiter α) (events : List (ChannelEvent α))
    (hl : w.listenerOn = false) (ht : w.timerOn = false) :
    awaitReplyRun requestId w events = w := by
  induction events with
  | nil => rfl
  | cons e es ih =>
    unfold awaitReplyRun at *
    rw [List.foldl_cons, awaitReplyStep_off requestId w e hl ht, ih]

theorem awaitReplyStep_clean (requestId : Nat) (w : Waiter α) (e : ChannelEvent α)
    (h : WaiterClean w) : WaiterClean (awaitReplyStep requestId w e) := by
  cases e with
  | message data =>
    by_cases hm : (w.listenerOn && matchesReply requestId data) = true
    · simp [awaitReplyStep, hm, WaiterClean]
    · simpa [awaitReplyStep, hm] using h
  | timerFires =>
    by_cases ht : w.timerOn = true
    · simp [awaitReplyStep, ht, WaiterClean]
    · simpa [awaitReplyStep, ht] using h

theorem awaitReplyRun_clean (requestId : Nat) (w : Waiter α) (events : List (ChannelEvent α))
    (h : WaiterClean w) : WaiterClean (awaitReplyRun requestId w events) := by
  induction events generalizing w with
  | nil => exact h
  | cons e es ih =>
    unfold awaitReplyRun at *
    rw [List.foldl_cons]
    exact ih _ (awaitReplyStep_clean requestId w e h)

/-- On message-only event sequences, the waiter resolves exactly with the
response of the first matching message, and stays pending when none
matches. -/
theorem awaitReplyRun_messages (requestId : Nat) (msgs : List (MessageData α)) :
    awaitReplyRun requestId awaitReplyStart (msgs.map ChannelEvent.message) =
      (match msgs.find? (matchesReply requestId) with
       | some m => { outcome := .resolved m.response, listenerOn := false, timerOn := false }
       | none => awaitReplyStart) := by
  induction msgs with
  | nil => rfl
  | cons m ms ih =>
    cases hm : matchesReply requestId m with
    | true =>
      have hstep : awaitReplyStep requestId awaitReplyStart (ChannelEvent.message m) =
          { outcome := .resolved m.response, listenerOn := false, timerOn := false } := by
        simp [awaitReplyStep, awaitReplyStart, hm, ReplyOutcome.settle]
      have hoff := awaitReplyRun_off requestId
        { outcome := ReplyOutcome.resolved m.response, listenerOn := false, timerOn := false }
        (ms.map ChannelEvent.message) rfl rfl
      unfold awaitReplyRun at hoff ⊢
      rw [List.map_cons, List.foldl_cons, hstep, hoff]
      simp [List.find?_cons, hm]
    | false =>
      unfold awaitReplyRun
      rw [List.map_cons, List.foldl_cons]
      have hstep : awaitReplyStep requestId awaitReplyStart (ChannelEvent.message m) =
          awaitReplyStart := by
        simp [awaitReplyStep, awaitReplyStart, hm]
      rw [hstep]
      have := ih
      unfold awaitReplyRun at this
      rw [this]
      simp [List.find?_cons, hm]

/-- A string is exactly the string built from its character list. -/
theorem mk_toList (s : String) : String.mk s.toList = s := rfl

/-- The character list of an embedded scoped URL. -/
theorem setURLScope_toList (u t : String) :
    (setURLScope u t).toList = scopeMarker ++ (t.toList ++ u.toList) := by
  simp [setURLScope, List.append_assoc]

/-- An embedded scoped URL is scoped. -/
theorem isURLScoped_setURLScope (u t : String) :
    isURLScoped (setURLScope u t) = true := by
  unfold isURLScoped
  rw [setURLScope_toList, List.take_left' (by decide : scopeMarker.length = 7)]
  simp

/-- The ids of successive calls starting at state `s` are `s+1, s+2, ...`. -/
theorem requestIdSeq_eq_range (s n : Nat) :
    requestIdSeq s n = List.range' (s + 1) n := by
  induction n generalizing s with
  | zero => rfl
  | succ n ih =>
    rw [requestIdSeq, List.range']
    exact congrArg _ (by simpa [Nat.add_assoc, Nat.add_comm 1 s] using ih (s + 1))

-- Claim theorems ------------------------------------------------------------

/-- C1: an `awaitReply(channel, id)` waiter resolves with exactly the
`response` field of the first inbound message whose type is `response` and
whose requestId equals `id`; messages with other requestIds are ignored and
left for other concurrent waiters, so posting a reply for id 2 before one
for id 1 resolves only the id-2 waiter while the id-1 waiter stays pending,
and the id-1 waiter still resolves when its own reply arrives later. -/
theorem awaitReply_resolves_first_matching {α : Type} :
    (∀ (requestId : Nat) (msgs : List (MessageData α)),
      (awaitReplyRun requestId awaitReplyStart (msgs.map ChannelEvent.message)).outcome =
        (match msgs.find? (matchesReply requestId) with
         | some m => ReplyOutcome.resolved m.response
         | none => ReplyOutcome.pending))
    ∧ (∀ r : α,
      (awaitReplyRun 2 awaitReplyStart
        [ChannelEvent.message (responseTo 2 r)]).outcome = ReplyOutcome.resolved r ∧
      (awaitReplyRun 1 awaitReplyStart
        [ChannelEvent.message (responseTo 2 r)]).outcome = ReplyOutcome.pending)
    ∧ (∀ r₁ r₂ : α,
      (awaitReplyRun 1 awaitReplyStart
        [ChannelEvent.message (responseTo 2 r₂),
         ChannelEvent.message (responseTo 1 r₁)]).outcome = ReplyOutcome.resolved r₁) := by
  refine ⟨?_, ?_, ?_⟩
  · intro requestId msgs
    rw [awaitReplyRun_messages]
    cases msgs.find? (matchesReply requestId) <;> rfl
  · intro r
    exact ⟨rfl, rfl⟩
  · intro r₁ r₂
    rfl

/-- C3: each `postMessageExpectReply` call returns an id strictly greater
than the counter state (hence than every previously returned id), brands
the posted message with exactly that id, and any number of successive calls
yields pairwise distinct, strictly increasing ids starting from the initial
counter 0. -/
theorem postMessageExpectReply_ids_strictly_increasing :
    (∀ (s : Nat) (α : Type) (message : α),
      (postMessageExpectReply s message).1.requestId =
        (postMessageExpectReply s message).2.1 ∧
      (postMessageExpectReply s message).1.payload = message ∧
      s < (postMessageExpectReply s message).2.1)
    ∧ (∀ n : Nat, (requestIdSeq lastRequestIdStart n).length = n ∧
        (requestIdSeq lastRequestIdStart n).Pairwise (· < ·))
    ∧ (∀ s n : Nat, (requestIdSeq s n).Pairwise (· < ·)) := by
  refine ⟨fun s α message => ⟨rfl, rfl, Nat.lt_succ_self s⟩, ?_, ?_⟩
  · intro n
    rw [requestIdSeq_eq_range]
    exact ⟨List.length_range' _ _ _, List.pairwise_lt_range' _ _⟩
  · intro s n
    rw [requestIdSeq_eq_range]
    exact List.pairwise_lt_range' _ _

/-- C2: if no matching message arrives before the timeout timer fires, the
`awaitReply` promise rejects with the timeout error; on any event sequence
the promise settles at most once (a settled waiter is unchanged by further
events) and the message listener has been removed whenever the promise has
settled; the default timeout is 25000 milliseconds. -/
theorem awaitReply_timeout_and_cleanup {α : Type} :
    (∀ (requestId : Nat) (msgs : List (MessageData α)),
      (∀ m ∈ msgs, matchesReply requestId m = false) →
      (awaitReplyRun requestId awaitReplyStart
        (msgs.map ChannelEvent.message ++ [ChannelEvent.timerFires])).outcome =
        ReplyOutcome.rejected "Request timed out")
    ∧ (∀ (requestId : Nat) (events : List (ChannelEvent α)),
      (awaitReplyRun requestId awaitReplyStart events).outcome ≠ ReplyOutcome.pending →
      (awaitReplyRun requestId awaitReplyStart events).listenerOn = false ∧
      (awaitReplyRun requestId awaitReplyStart events).timerOn = false)
    ∧ (∀ (requestId : Nat) (events extra : List (ChannelEvent α)),
      (awaitReplyRun requestId awaitReplyStart events).outcome ≠ ReplyOutcome.pending →
      awaitReplyRun requestId (awaitReplyRun requestId awaitReplyStart events) extra =
        awaitReplyRun requestId awaitReplyStart events)
    ∧ DEFAULT_RESPONSE_TIMEOUT = 25000 := by
  have hclean : ∀ (requestId : Nat) (events : List (ChannelEvent α)),
      WaiterClean (awaitReplyRun requestId awaitReplyStart events) := by
    intro requestId events
    refine awaitReplyRun_clean requestId awaitReplyStart events ?_
    intro h
    exact absurd rfl h
  refine ⟨?_, ?_, ?_, rfl⟩
  · intro requestId msgs hnone
    have hfind : msgs.find? (matchesReply requestId) = none := by
      rw [List.find?_eq_none]
      intro m hm
      simp [hnone m hm]
    unfold awaitReplyRun
    rw [List.foldl_append]
    have hmsgs := awaitReplyRun_messages requestId msgs
    unfold awaitReplyRun at hmsgs
    rw [hmsgs, hfind]
    rfl
  · intro requestId events h
    exact hclean requestId events h
  · intro requestId events extra h
    obtain ⟨hl, ht⟩ := hclean requestId events h
    exact awaitReplyRun_off requestId _ extra hl ht

/-- Witness for C2 at concrete inputs: a non-matching reply followed by the
timer firing rejects the id-1 waiter, and after a timer expiry the listener
is removed, the timer is cleared and further events change nothing. -/
theorem awaitReply_timeout_and_cleanup_witness :
    (awaitReplyRun 1 awaitReplyStart
      ([responseTo 2 (0 : Nat)].map ChannelEvent.message ++ [ChannelEvent.timerFires])).outcome =
      ReplyOutcome.rejected "Request timed out" ∧
    ((awaitReplyRun 1 awaitReplyStart [ChannelEvent.timerFires (α := Nat)]).listenerOn = false ∧
      (awaitReplyRun 1 awaitReplyStart [ChannelEvent.timerFires (α := Nat)]).timerOn = false) ∧
    awaitReplyRun 1 (awaitReplyRun 1 awaitReplyStart [ChannelEvent.timerFires (α := Nat)])
        [ChannelEvent.timerFires] =
      awaitReplyRun 1 awaitReplyStart [ChannelEvent.timerFires] :=
  ⟨awaitReply_timeout_and_cleanup.1 1 [responseTo 2 0] (by decide),
    awaitReply_timeout_and_cleanup.2.1 1 [ChannelEvent.timerFires] (by decide),
    awaitReply_timeout_and_cleanup.2.2.1 1 [ChannelEvent.timerFires] [ChannelEvent.timerFires]
      (by decide)⟩

/-- C4: for every URL path `u` (paths start with the separator) and every
token `t` over the token alphabet (which excludes the path separator),
stripping a previously-embedded scope token reproduces the original
unscoped path byte-for-byte, and reading the scope of the scoped path gives
back exactly the token. -/
theorem scope_roundtrip (u t : String)
    (ht : ∀ c ∈ t.toList, c ≠ '/')
    (hu : u.toList.head? = some '/') :
    removeURLScope (setURLScope u t) = u ∧ getURLScope (setURLScope u t) = some t := by
  obtain ⟨c, us, huc⟩ : ∃ c us, u.toList = c :: us := by
    cases h : u.toList with
    | nil => rw [h] at hu; cases hu
    | cons c us => exact ⟨c, us, rfl⟩
  have hc : c = '/' := by
    rw [huc] at hu
    simpa using hu
  have hdrop : (setURLScope u t).toList.drop 7 = t.toList ++ u.toList := by
    rw [setURLScope_toList, List.drop_left' (by decide : scopeMarker.length = 7)]
  have hself : t.toList.takeWhile (fun ch => ch ≠ '/') = t.toList :=
    List.takeWhile_eq_self_iff.mpr (by intro x hx; simpa using ht x hx)
  have htake : (t.toList ++ u.toList).takeWhile (fun ch => ch ≠ '/') = t.toList := by
    rw [List.takeWhile_append, if_pos (by rw [hself]), huc, hc,
      List.takeWhile_cons_of_neg (by simp)]
    simp
  have hnil : t.toList.dropWhile (fun ch => ch ≠ '/') = [] :=
    List.dropWhile_eq_nil_iff.mpr (by intro x hx; simpa using ht x hx)
  have hdropw : (t.toList ++ u.toList).dropWhile (fun ch => ch ≠ '/') = u.toList := by
    rw [List.dropWhile_append, if_pos (by rw [hnil]; rfl), huc, hc,
      List.dropWhile_cons_of_neg (by simp)]
  constructor
  · unfold removeURLScope
    simp only [isURLScoped_setURLScope, if_true]
    rw [hdrop, hdropw]
    exact mk_toList u
  · unfold getURLScope
    simp only [isURLScoped_setURLScope, if_true]
    rw [hdrop, htake, mk_toList]

/-- Witness for C4 at a concrete path and token. -/
theorem scope_roundtrip_witness :
    removeURLScope (setURLScope "/index.php" "abc") = "/index.php" ∧
    getURLScope (setURLScope "/index.php" "abc") = some "abc" :=
  scope_roundtrip "/index.php" "abc" (by decide) (by decide)

/-- C10: `responseTo(n, r)` is exactly the message with type `response`,
requestId `n` and response `r`; it satisfies `awaitReply`'s match test for
id `n`, and a waiter for id `n` that receives it resolves with exactly
`r`. -/
theorem responseTo_matches_awaitReply {α : Type} :
    ∀ (requestId : Nat) (response : α),
      responseTo requestId response =
        { type := "response", requestId := requestId, response := response } ∧
      matchesReply requestId (responseTo requestId response) = true ∧
      (awaitReplyRun requestId awaitReplyStart
        [ChannelEvent.message (responseTo requestId response)]).outcome =
        ReplyOutcome.resolved response := by
  intro requestId response
  refine ⟨rfl, ?_, ?_⟩
  · simp [matchesReply, responseTo]
  · simp [awaitReplyRun, awaitReplyStep, awaitReplyStart, matchesReply, responseTo,
      ReplyOutcome.settle]

/-- C5: the default forward predicate holds for a path referencing a
`.php` resource (including `.php` followed by further segments) and for a
path whose final segment has no file extension; in particular it holds for
`/index.php`, `/index.php/extra/segment`, `/` and `/blog/`, and fails for
`/style.css`. -/
theorem seemsLikeAPHPServerPath_heuristic :
    (∀ path : String, seemsLikeAPHPFile path = true → seemsLikeAPHPServerPath path = true)
    ∧ (∀ path : String, seemsLikeADirectoryRoot path = true → seemsLikeAPHPServerPath path = true)
    ∧ seemsLikeAPHPServerPath "/index.php" = true
    ∧ seemsLikeAPHPServerPath "/index.php/extra/segment" = true
    ∧ seemsLikeAPHPServerPath "/" = true
    ∧ seemsLikeAPHPServerPath "/blog/" = true
    ∧ seemsLikeAPHPServerPath "/style.css" = false := by
  refine ⟨?_, ?_, by decide, by decide, by decide, by decide, by decide⟩
  · intro path h
    simp [seemsLikeAPHPServerPath, h]
  · intro path h
    simp [seemsLikeAPHPServerPath, h]

/-- Witness for C5: the script-resource disjunct applied at a concrete
path. -/
theorem seemsLikeAPHPServerPath_heuristic_witness :
    seemsLikeAPHPServerPath "/wp-admin/admin.php" = true :=
  seemsLikeAPHPServerPath_heuristic.1 "/wp-admin/admin.php" (by decide)

/-- C6: a fetch event whose resolved URL is scoped but for which the
forward predicate answers false is answered by exactly one reissued fetch
for the unscoped URL, equivalent to the original request: same method,
headers, referrer attributes, credentials, cache, redirect and integrity,
with the body kept for non-GET and non-HEAD methods; concretely, a scoped
request for `/scope:abc/logo.png` is reissued for `/logo.png`. -/
theorem scoped_not_forwarded_reissues_unscoped
    (shouldForward : RequestModel → String → Bool) (request : RequestModel)
    (hscoped : isURLScoped (resolveScopedUrl request) = true)
    (hnofwd : shouldForward request (removeURLScope (resolveScopedUrl request)) = false) :
    handleFetch shouldForward request =
      FetchDecision.reissue
        (cloneRequest request (some (removeURLScope (resolveScopedUrl request)))) ∧
    (cloneRequest request (some (removeURLScope (resolveScopedUrl request)))).url =
      removeURLScope (resolveScopedUrl request) ∧
    (cloneRequest request (some (removeURLScope (resolveScopedUrl request)))).method =
      request.method ∧
    (cloneRequest request (some (removeURLScope (resolveScopedUrl request)))).headers =
      request.headers ∧
    (¬(request.method = "GET" ∨ request.method = "HEAD") →
      (cloneRequest request (some (removeURLScope (resolveScopedUrl request)))).body =
        request.body) ∧
    (cloneRequest request (some (removeURLScope (resolveScopedUrl request)))).referrer =
      request.referrer ∧
    (cloneRequest request (some (removeURLScope (resolveScopedUrl request)))).referrerPolicy =
      request.referrerPolicy ∧
    (cloneRequest request (some (removeURLScope (resolveScopedUrl request)))).credentials =
      request.credentials ∧
    (cloneRequest request (some (removeURLScope (resolveScopedUrl request)))).cache =
      request.cache ∧
    (cloneRequest request (some (removeURLScope (resolveScopedUrl request)))).redirect =
      request.redirect ∧
    (cloneRequest request (some (removeURLScope (resolveScopedUrl request)))).integrity =
      request.integrity ∧
    handleFetch (fun _ _ => false) exampleLogoRequest =
      FetchDecision.reissue (cloneRequest exampleLogoRequest (some "/logo.png")) ∧
    (cloneRequest exampleLogoRequest (some "/logo.png")).url = "/logo.png" := by
  refine ⟨?_, rfl, rfl, rfl, ?_, rfl, rfl, rfl, rfl, rfl, rfl, by decide, by decide⟩
  · unfold handleFetch
    simp [hscoped, hnofwd]
  · intro hm
    simp [cloneRequest, if_neg hm]

/-- Witness for C6 at the concrete scoped static-asset request with an
always-false forward predicate. -/
theorem scoped_not_forwarded_reissues_unscoped_witness :
    handleFetch (fun _ _ => false) exampleLogoRequest =
      FetchDecision.reissue
        (cloneRequest exampleLogoRequest
          (some (removeURLScope (resolveScopedUrl exampleLogoRequest)))) :=
  (scoped_not_forwarded_reissues_unscoped (fun _ _ => false) exampleLogoRequest
    (by decide) (by decide)).1

/-- C7 counterexample: for a POST request whose body parses neither as form
data nor as JSON, `parsePost` propagates the failure instead of falling
back to an empty-body interpretation, so a body-parse failure is not
always recovered locally. -/
theorem parsePost_double_failure_escapes :
    parsePost "POST" none none = Except.error () := rfl

/-- C7 amended: body parsing attempts form-field and file extraction first
(the JSON outcome is then irrelevant), falls back to JSON parsing with an
empty files map when the form parse fails, and treats a non-POST request as
an empty body; but when both the form parse and the JSON parse fail, the
failure escapes `parsePost` instead of terminating in an empty-body
interpretation. -/
theorem parsePost_fallback_chain :
    (∀ (method : String) (f : Option (List (String × FormEntry))) (j : Option String),
      method ≠ "POST" → parsePost method f j = Except.ok { post := none, files := none })
    ∧ (∀ (entries : List (String × FormEntry)) (j₁ j₂ : Option String),
      parsePost "POST" (some entries) j₁ = parsePost "POST" (some entries) j₂ ∧
      ∃ r, parsePost "POST" (some entries) j₁ = Except.ok r)
    ∧ (∀ j : String, parsePost "POST" none (some j) =
        Except.ok { post := some (PostBody.jsonBody j), files := some [] })
    ∧ parsePost "POST" none none = Except.error () := by
  refine ⟨?_, ?_, fun j => rfl, rfl⟩
  · intro method f j h
    simp [parsePost, h]
  · intro entries j₁ j₂
    exact ⟨rfl, _, rfl⟩

/-- Witness for C7 amended: a non-POST request parses to the empty-body
interpretation. -/
theorem parsePost_fallback_chain_witness :
    parsePost "GET" none none = Except.ok { post := none, files := none } :=
  parsePost_fallback_chain.1 "GET" none none (by decide)

/-- C8: on a failed forward the event never settles at all. A parse
failure throws before any broadcast and the event hangs; a reply failure
(timeout or dispatch exception) is rethrown inside the accept-only async
executor after exactly one broadcast, with no retry, and the event hangs,
so the fetch neither rejects with a browser-visible error (contrary to the
claim and to the intent of the rethrow in the catch block) nor silently
resolves to an empty success response. Evaluated concretely at a forwarded
request whose reply channel times out. -/
theorem forward_failure_hangs :
    forwardBranch exampleLogoRequest "/scope:abc/index.php"
        (Except.ok { post := none, files := none }) (fun _ => Except.error ()) =
      ([buildWorkerMessage exampleLogoRequest "/scope:abc/index.php"
          { post := none, files := none }], EventOutcome.hangs) ∧
    (∀ (request : RequestModel) (url : String) (parsed : ParsedPost)
        (replyOutcome : WorkerMessage → Except Unit PHPResponse),
      replyOutcome (buildWorkerMessage request url parsed) = Except.error () →
      (forwardBranch request url (Except.ok parsed) replyOutcome).2 = EventOutcome.hangs) ∧
    (∀ (request : RequestModel) (url : String)
        (replyOutcome : WorkerMessage → Except Unit PHPResponse) (e : Unit),
      forwardBranch request url (Except.error e) replyOutcome = ([], EventOutcome.hangs)) ∧
    (∀ (request : RequestModel) (url : String) (parsed : ParsedPost)
        (replyOutcome : WorkerMessage → Except Unit PHPResponse),
      (forwardBranch request url (Except.ok parsed) replyOutcome).1 =
        [buildWorkerMessage request url parsed]) := by
  have hred : ∀ (request : RequestModel) (url : String) (parsed : ParsedPost)
      (reply : WorkerMessage → Except Unit PHPResponse),
      forwardBranch request url (Except.ok parsed) reply =
        (match reply (buildWorkerMessage request url parsed) with
         | Except.error _ => ([buildWorkerMessage request url parsed], EventOutcome.hangs)
         | Except.ok php =>
           ([buildWorkerMessage request url parsed],
             EventOutcome.answered
               (SyntheticResponse.mk php.statusCode php.headers php.body))) :=
    fun _ _ _ _ => rfl
  refine ⟨rfl, ?_, fun _ _ _ _ => rfl, ?_⟩
  · intro request url parsed replyOutcome hfail
    rw [hred request url parsed replyOutcome, hfail]
  · intro request url parsed replyOutcome
    rw [hred request url parsed replyOutcome]
    cases replyOutcome (buildWorkerMessage request url parsed) <;> rfl

/-- Witness for C8: the hangs outcome of a forwarded request whose reply
channel always fails, with the timeout hypothesis discharged concretely. -/
theorem forward_failure_hangs_witness :
    (forwardBranch exampleLogoRequest "/scope:abc/index.php"
        (Except.ok { post := none, files := none }) (fun _ => Except.error ())).2 =
      EventOutcome.hangs :=
  forward_failure_hangs.2.1 exampleLogoRequest "/scope:abc/index.php"
    { post := none, files := none } (fun _ => Except.error ()) rfl

/-- C9: a well-formed reply is passed through verbatim: the synthesized
HTTP response has exactly the reply's statusCode as status, the reply's
headers and the reply's body, for every status code including server-error
codes; concretely a reply with statusCode 200 and body `hi` yields an HTTP
response with status 200 and body `hi`, and a statusCode-500 reply passes
through as status 500. -/
theorem reply_synthesized_verbatim :
    (∀ (request : RequestModel) (url : String) (parsed : ParsedPost) (php : PHPResponse),
      (forwardBranch request url (Except.ok parsed) (fun _ => Except.ok php)).2 =
        EventOutcome.answered
          { status := php.statusCode, headers := php.headers, body := php.body })
    ∧ (forwardBranch exampleLogoRequest "/scope:abc/index.php"
        (Except.ok { post := none, files := none })
        (fun _ => Except.ok { statusCode := 200, headers := [], body := "hi" })).2 =
        EventOutcome.answered { status := 200, headers := [], body := "hi" }
    ∧ (forwardBranch exampleLogoRequest "/scope:abc/index.php"
        (Except.ok { post := none, files := none })
        (fun _ => Except.ok { statusCode := 500, headers := [], body := "err" })).2 =
        EventOutcome.answered { status := 500, headers := [], body := "err" } :=
  ⟨fun _ _ _ _ => rfl, rfl, rfl⟩

end Playground
